import Mathlib

/-!
Shallow embedding of the marketplace backend's authentication and product
CRUD handlers (src/app/views.py and src/app/models.py), and proofs of the
behavioural properties stated about them.

The external collaborators of the handlers are made explicit parameters:
the database session becomes a list of rows passed in and returned, the
bcrypt functions become abstract hashing/checking functions, uuid4 and the
autoincrement primary key become fresh-value parameters, and the process
clock becomes an integer time parameter.  Numeric JSON values are modelled
as integers: no handler performs arithmetic on them beyond the sign checks
in the schemas, so fractional prices play no role in any property below;
likewise the numeric-string coercion performed by schema.Use is not
modelled, since no property depends on it.
-/

namespace App

/-- JSON-style values appearing in request bodies, token claims and
database columns. -/
inductive Value where
  | vnull
  | vstr (s : String)
  | vint (n : Int)
  deriving DecidableEq, Repr

/-- Python-dict lookup over an association list built left to right:
later entries override earlier ones, as in a dict literal with
expansions. -/
def dictGet (d : List (String × Value)) (k : String) : Option Value :=
  (d.reverse.find? (fun kv => kv.1 == k)).map (fun kv => kv.2)

/-- models.py UserRole enum. -/
inductive UserRole where
  | user
  | admin
  deriving DecidableEq, Repr

/-- Integer stored in the role column for each UserRole member. -/
def UserRole.value : UserRole → Int
  | .user => 0
  | .admin => 1

/-- models.py User row.  profile_picture is nullable (registration never
sets it); the bcrypt hash is stored alongside the public fields. -/
structure User where
  user_id : String
  user_name : String
  phone : String
  role : Int
  email : String
  profile_picture : Option String
  hash : String
  deriving DecidableEq, Repr

/-- models.py User.to_dict: the public fields, without the hash. -/
def User.to_dict (u : User) : List (String × Value) :=
  [("user_id", .vstr u.user_id),
   ("user_name", .vstr u.user_name),
   ("phone", .vstr u.phone),
   ("role", .vint u.role),
   ("email", .vstr u.email),
   ("profile_picture", match u.profile_picture with
     | some s => .vstr s
     | none => .vnull)]

/-- views.py time constants. -/
def SECOND : Int := 1

/-- Sixty seconds. -/
def MINUTE : Int := 60 * SECOND

/-- Sixty minutes. -/
def HOUR : Int := 60 * MINUTE

/-- A signed token, abstracting the JWT string produced by jwt.encode:
the issued-at and expiry stamps plus the keyword claims. -/
structure Token where
  iat : Int
  exp : Int
  claims : List (String × Value)
  deriving DecidableEq, Repr

/-- views.py create_token: payload has iat = now and exp = now +
expires_in plus the keyword claims; both now() reads are modelled as the
same clock instant tnow. -/
def create_token (tnow : Int) (expires_in : Int)
    (kwargs : List (String × Value)) : Token :=
  { iat := tnow, exp := tnow + expires_in, claims := kwargs }

/-- Full payload dict of a token as built in create_token.  Call sites in
this codebase never pass iat or exp among the keyword claims, and dictGet
is last-wins, matching dict-expansion override order. -/
def Token.payload (t : Token) : List (String × Value) :=
  ("iat", .vint t.iat) :: ("exp", .vint t.exp) :: t.claims

/-- Modelled from the spec: the Token Verifier (the external jwt.decode,
not part of src/) rejects a token whose signature does not verify and
rejects an expired token — expired at any time at or past exp, valid
strictly before — and otherwise returns the embedded claims. -/
def jwt_verify (sig_ok : Bool) (tnow : Int) (tok : Token) :
    Option (List (String × Value)) :=
  if sig_ok then
    if tok.exp ≤ tnow then none else some tok.claims
  else none

/-- Responses the handlers produce.  crash marks an unhandled Python
exception escaping the handler (Flask surfaces it as a generic 500). -/
inductive Resp where
  | badRequest
  | conflict
  | unauthorizedResp
  | permissionDenied
  | notFound
  | forbidden
  | success
  | tokenResp (tok : Token)
  | jsonResp (fields : List (String × Value))
  | crash
  deriving DecidableEq, Repr

/-- HTTP status code of each response. -/
def Resp.code : Resp → Nat
  | .badRequest => 400
  | .conflict => 409
  | .unauthorizedResp => 401
  | .permissionDenied => 401
  | .notFound => 404
  | .forbidden => 403
  | .success => 200
  | .tokenResp _ => 200
  | .jsonResp _ => 200
  | .crash => 500

/-- The "status" field of the JSON bodies of the error responses, exactly
as spelled in views.py. -/
def Resp.statusText : Resp → Option String
  | .badRequest => some "Bad request"
  | .conflict => some "Email is already exsit"
  | .unauthorizedResp => some "Unauthorized"
  | .permissionDenied => some "Permission denied"
  | .notFound => some "Not Found"
  | .forbidden => some "Forbidden"
  | _ => none

/-- The "message" field of the success body. -/
def Resp.messageText : Resp → Option String
  | .success => some "success"
  | _ => none

/-- views.py token_required header parsing: re.match of the pattern
"Bearer (.*)" is anchored at the start of the header and the capture runs
to the first newline. -/
def parseBearer (header : String) : Option String :=
  match header.data with
  | 'B' :: 'e' :: 'a' :: 'r' :: 'e' :: 'r' :: ' ' :: rest =>
    some (String.mk (rest.takeWhile (fun c => !(c == '\n'))))
  | _ => none

/-- views.py token_required: the guard wrapping every protected handler.
verify abstracts jwt.decode on the raw token string; st is the ambient
store the wrapped handler may change. -/
def token_required (σ : Type) (verify : String → Option (List (String × Value)))
    (header : Option String) (st : σ)
    (handler : List (String × Value) → σ → Resp × σ) : Resp × σ :=
  match header with
  | none => (.forbidden, st)
  | some h =>
    match parseBearer h with
    | none => (.forbidden, st)
    | some tok =>
      match verify tok with
      | none => (.forbidden, st)
      | some claims => handler claims st

/-- Word character of the regex metacharacter for a word boundary. -/
def isWordChar (c : Char) : Bool :=
  c.isAlpha || c.isDigit || c == '_'

/-- Character class of the local part of EMAIL_REGEX. -/
def isLocalChar (c : Char) : Bool :=
  c.isAlpha || c.isDigit || c == '.' || c == '_' || c == '%' ||
    c == '+' || c == '-'

/-- Character class of the domain part of EMAIL_REGEX. -/
def isDomainChar (c : Char) : Bool :=
  c.isAlpha || c.isDigit || c == '.' || c == '-'

/-- Character class of the final segment of EMAIL_REGEX; the class
[A-Z|a-z] contains a literal pipe. -/
def isTldChar (c : Char) : Bool :=
  c.isUpper || c == '|' || c.isLower

/-- Match of the part of EMAIL_REGEX after the at sign: a nonempty run of
domain characters, a dot, and at least two final-segment characters ending
at a word boundary; the regex engine may place the dot at any position
that lets the whole string match. -/
def emailDomainOk (rest : List Char) : Bool :=
  (List.range rest.length).any fun i =>
    (rest.get? i == some '.') &&
    (let d := rest.take i
     let t := rest.drop (i + 1)
     !d.isEmpty && d.all isDomainChar &&
     decide (2 ≤ t.length) && t.all isTldChar &&
     (match t.getLast? with
      | some c => isWordChar c
      | none => false))

/-- views.py is_email: re.fullmatch of EMAIL_REGEX.  The local-part class
excludes the at sign, so the split at the first at sign is the only
possible one; the leading and trailing word boundaries force the first and
last matched characters to be word characters. -/
def is_email (s : String) : Bool :=
  let cs := s.data
  let l := cs.takeWhile (fun c => !(c == '@'))
  match cs.dropWhile (fun c => !(c == '@')) with
  | '@' :: rest =>
    !l.isEmpty &&
    (match l.head? with
     | some c => isWordChar c
     | none => false) &&
    l.all isLocalChar && emailDomainOk rest
  | _ => false

/-- Keys of REGISTER_SCHEMA. -/
def registerKeys : List String := ["user_name", "password", "phone", "email"]

/-- Validated register request body. -/
structure RegisterReq where
  user_name : String
  password : String
  phone : String
  email : String
  deriving DecidableEq, Repr

/-- views.py REGISTER_SCHEMA validation: the schema library rejects
unexpected keys and missing keys, then checks each value — nonempty
strings throughout and a pattern-valid email. -/
def validateRegister (body : List (String × Value)) : Option RegisterReq :=
  if body.all (fun kv => registerKeys.contains kv.1) &&
      registerKeys.all (fun k => (dictGet body k).isSome) then
    match dictGet body "user_name", dictGet body "password",
        dictGet body "phone", dictGet body "email" with
    | some (.vstr un), some (.vstr pw), some (.vstr ph), some (.vstr em) =>
      if !un.isEmpty && !pw.isEmpty && !ph.isEmpty &&
          !em.isEmpty && is_email em then
        some { user_name := un, password := pw, phone := ph, email := em }
      else none
    | _, _, _, _ => none
  else none

/-- Keys of LOGIN_SCHEMA. -/
def loginKeys : List String := ["user_name", "password"]

/-- Validated login request body. -/
structure LoginReq where
  user_name : String
  password : String
  deriving DecidableEq, Repr

/-- views.py LOGIN_SCHEMA validation. -/
def validateLogin (body : List (String × Value)) : Option LoginReq :=
  if body.all (fun kv => loginKeys.contains kv.1) &&
      loginKeys.all (fun k => (dictGet body k).isSome) then
    match dictGet body "user_name", dictGet body "password" with
    | some (.vstr un), some (.vstr pw) =>
      if !un.isEmpty && !pw.isEmpty then
        some { user_name := un, password := pw }
      else none
    | _, _ => none
  else none

/-- db.session.get over the user table: primary-key lookup. -/
def getUser (store : List User) (uid : String) : Option User :=
  store.find? (fun u => u.user_id == uid)

/-- Primary-key lookup with a claims value as the key, as performed by
handlers that read flask.g.token; a non-string key matches no row. -/
def getUserByValue (store : List User) (v : Value) : Option User :=
  store.find? (fun u => Value.vstr u.user_id == v)

/-- db.session.merge + commit over the user table: update the row with
the same primary key when present, otherwise insert. -/
def mergeUser (store : List User) (u : User) : List User :=
  if store.any (fun v => v.user_id == u.user_id) then
    store.map (fun v => if v.user_id == u.user_id then u else v)
  else store ++ [u]

/-- The User row built by register_route: a fresh server-generated id,
the validated fields, role UserRole.user.value, and the bcrypt hash of
the password. -/
def registeredUser (fresh_uuid : String) (hashpw : String → String)
    (req : RegisterReq) : User :=
  { user_id := fresh_uuid, user_name := req.user_name, phone := req.phone,
    role := UserRole.value .user, email := req.email,
    profile_picture := none, hash := hashpw req.password }

/-- views.py register_route: validate, reject a duplicate email with 409,
persist a fresh user, re-fetch the persisted row and answer with a token
over its public fields. -/
def register_route (store : List User) (fresh_uuid : String)
    (hashpw : String → String) (tnow : Int)
    (body : List (String × Value)) : Resp × List User :=
  match validateRegister body with
  | none => (.badRequest, store)
  | some req =>
    if store.any (fun u => u.email == req.email) then
      (.conflict, store)
    else
      let user := registeredUser fresh_uuid hashpw req
      let store' := mergeUser store user
      match getUser store' user.user_id with
      | none => (.crash, store')
      | some u => (.tokenResp (create_token tnow (1 * HOUR) (User.to_dict u)),
          store')

/-- views.py login_route: validate, look up by user name, check the
password with bcrypt.checkpw, and answer with a token over the stored
row's public fields; both failure branches answer 401 Unauthorized. -/
def login_route (store : List User) (checkpw : String → String → Bool)
    (tnow : Int) (body : List (String × Value)) : Resp :=
  match validateLogin body with
  | none => .badRequest
  | some req =>
    match store.find? (fun u => u.user_name == req.user_name) with
    | none => .unauthorizedResp
    | some user =>
      if checkpw req.password user.hash then
        .tokenResp (create_token tnow (1 * HOUR) (User.to_dict user))
      else .unauthorizedResp

/-- views.py current_user_route: read user_id from the verified claims,
fetch the row, and serialise it.  A missing claims key raises KeyError and
a missing row makes to_dict dereference None; both escape the handler. -/
def current_user_route (store : List User)
    (claims : List (String × Value)) : Resp :=
  match dictGet claims "user_id" with
  | none => .crash
  | some uid =>
    match getUserByValue store uid with
    | none => .crash
    | some u => .jsonResp (User.to_dict u)

/-- models.py Product row.  user_id is the owner foreign key; handlers
assign and compare it against the token claims value directly, so it is
kept as a claims value. -/
structure Product where
  product_id : Int
  product_name : String
  picture : String
  selling_price : Int
  description : String
  available : Int
  user_id : Value
  category_id : Int
  deriving DecidableEq, Repr

/-- db.session.get over the product table: primary-key lookup. -/
def getProduct (store : List Product) (pid : Int) : Option Product :=
  store.find? (fun p => p.product_id == pid)

/-- db.session.merge + commit over the product table. -/
def mergeProduct (store : List Product) (p : Product) : List Product :=
  if store.any (fun q => q.product_id == p.product_id) then
    store.map (fun q => if q.product_id == p.product_id then p else q)
  else store ++ [p]

/-- Keys of CREATE_PRODUCT_SCHEMA. -/
def createProductKeys : List String :=
  ["product_name", "picture", "selling_price", "description", "category_id"]

/-- Validated create-product request body. -/
structure CreateProductReq where
  product_name : String
  picture : String
  selling_price : Int
  description : String
  category_id : Int
  deriving DecidableEq, Repr

/-- views.py CREATE_PRODUCT_SCHEMA validation: unexpected and missing
keys rejected, nonempty strings, nonnegative numbers. -/
def validateCreateProduct (body : List (String × Value)) :
    Option CreateProductReq :=
  if body.all (fun kv => createProductKeys.contains kv.1) &&
      createProductKeys.all (fun k => (dictGet body k).isSome) then
    match dictGet body "product_name", dictGet body "picture",
        dictGet body "selling_price", dictGet body "description",
        dictGet body "category_id" with
    | some (.vstr nm), some (.vstr pic), some (.vint sp),
        some (.vstr ds), some (.vint cid) =>
      if !nm.isEmpty && !pic.isEmpty && decide (0 ≤ sp) &&
          !ds.isEmpty && decide (0 ≤ cid) then
        some { product_name := nm, picture := pic, selling_price := sp,
               description := ds, category_id := cid }
      else none
    | _, _, _, _, _ => none
  else none

/-- Keys of UPDATE_PRODUCT_SCHEMA: product_id plus every create field,
none of them optional. -/
def updateProductKeys : List String :=
  ["product_id", "product_name", "picture", "selling_price",
   "description", "category_id"]

/-- Validated update-product request body. -/
structure UpdateProductReq where
  product_id : Int
  product_name : String
  picture : String
  selling_price : Int
  description : String
  category_id : Int
  deriving DecidableEq, Repr

/-- views.py UPDATE_PRODUCT_SCHEMA validation: like the create schema
with the additional required product_id. -/
def validateUpdateProduct (body : List (String × Value)) :
    Option UpdateProductReq :=
  if body.all (fun kv => updateProductKeys.contains kv.1) &&
      updateProductKeys.all (fun k => (dictGet body k).isSome) then
    match dictGet body "product_id", dictGet body "product_name",
        dictGet body "picture", dictGet body "selling_price",
        dictGet body "description", dictGet body "category_id" with
    | some (.vint pid), some (.vstr nm), some (.vstr pic),
        some (.vint sp), some (.vstr ds), some (.vint cid) =>
      if decide (0 ≤ pid) && !nm.isEmpty && !pic.isEmpty &&
          decide (0 ≤ sp) && !ds.isEmpty && decide (0 ≤ cid) then
        some { product_id := pid, product_name := nm, picture := pic,
               selling_price := sp, description := ds, category_id := cid }
      else none
    | _, _, _, _, _, _ => none
  else none

/-- The Product row built by create_product_route: the validated fields,
available fixed at 0 and user_id taken from the verified claims; the
autoincrement primary key is the fresh_pid parameter. -/
def createdProduct (fresh_pid : Int) (owner : Value)
    (req : CreateProductReq) : Product :=
  { product_id := fresh_pid, product_name := req.product_name,
    picture := req.picture, selling_price := req.selling_price,
    description := req.description, available := 0,
    user_id := owner, category_id := req.category_id }

/-- views.py create_product_route (runs under token_required): validate,
then insert a product owned by the requester with available = 0. -/
def create_product_route (store : List Product)
    (claims : List (String × Value)) (fresh_pid : Int)
    (body : List (String × Value)) : Resp × List Product :=
  match validateCreateProduct body with
  | none => (.badRequest, store)
  | some req =>
    match dictGet claims "user_id" with
    | none => (.crash, store)
    | some owner => (.success, store ++ [createdProduct fresh_pid owner req])

/-- The row produced by the update loop of update_product_route: every
create field of the validated request is written over the stored row. -/
def applyUpdate (p : Product) (req : UpdateProductReq) : Product :=
  { p with
    product_name := req.product_name,
    picture := req.picture,
    selling_price := req.selling_price,
    description := req.description,
    category_id := req.category_id }

/-- views.py update_product_route (runs under token_required): validate,
read the requester identity from the claims, fetch the row by product_id,
reject a missing row with 404 and a foreign owner with 401, otherwise
write the validated fields back and answer success. -/
def update_product_route (store : List Product)
    (claims : List (String × Value))
    (body : List (String × Value)) : Resp × List Product :=
  match validateUpdateProduct body with
  | none => (.badRequest, store)
  | some req =>
    match dictGet claims "user_id" with
    | none => (.crash, store)
    | some current_user_id =>
      match getProduct store req.product_id with
      | none => (.notFound, store)
      | some product =>
        if product.user_id == current_user_id then
          (.success, mergeProduct store (applyUpdate product req))
        else (.permissionDenied, store)

/-- views.py delete_product_route (runs under token_required): fetch the
row, reject a missing row with 404, then read the requester identity and
reject a foreign owner with 401, otherwise delete the row. -/
def delete_product_route (store : List Product)
    (claims : List (String × Value)) (product_id : Int) :
    Resp × List Product :=
  match getProduct store product_id with
  | none => (.notFound, store)
  | some product =>
    match dictGet claims "user_id" with
    | none => (.crash, store)
    | some current_user_id =>
      if product.user_id == current_user_id then
        (.success, store.erase product)
      else (.permissionDenied, store)

/-- Identity keys that User.to_dict serialises into every issued token. -/
def identityKeys : List String :=
  ["user_id", "user_name", "phone", "role", "email", "profile_picture"]

/-- A token payload is complete when it carries every identity key and no
hash key. -/
def claimsComplete (tok : Token) : Bool :=
  identityKeys.all (fun k => (dictGet (Token.payload tok) k).isSome) &&
  (dictGet (Token.payload tok) "hash").isNone

/-- Sample user row for the concrete witnesses below. -/
def wAlice : User :=
  { user_id := "alice-id", user_name := "alice", phone := "555", role := 0,
    email := "a@b.com", profile_picture := none, hash := "hh" }

/-- Sample register body. -/
def wRegisterBody : List (String × Value) :=
  [("user_name", .vstr "alice"), ("password", .vstr "pw123456"),
   ("phone", .vstr "555"), ("email", .vstr "a@b.com")]

/-- Validated form of wRegisterBody. -/
def wRegisterReq : RegisterReq :=
  { user_name := "alice", password := "pw123456", phone := "555",
    email := "a@b.com" }

/-- Sample login body. -/
def wLoginBody : List (String × Value) :=
  [("user_name", .vstr "alice"), ("password", .vstr "pw123456")]

/-- Validated form of wLoginBody. -/
def wLoginReq : LoginReq := { user_name := "alice", password := "pw123456" }

/-- Sample product row owned by wAlice. -/
def sampleProduct : Product :=
  { product_id := 7, product_name := "lamp", picture := "pic",
    selling_price := 5, description := "desc", available := 0,
    user_id := .vstr "alice-id", category_id := 1 }

/-- Sample product store. -/
def sampleProductStore : List Product := [sampleProduct]

/-- Verified claims carrying the owner identity. -/
def aliceClaims : List (String × Value) := [("user_id", .vstr "alice-id")]

/-- Verified claims carrying a different authenticated identity. -/
def bobClaims : List (String × Value) := [("user_id", .vstr "bob-id")]

/-- Update body holding product_id and a proper subset of the create
fields. -/
def subsetUpdateBody : List (String × Value) :=
  [("product_id", .vint 7), ("product_name", .vstr "newlamp")]

/-- Update body holding product_id and every create field. -/
def fullUpdateBody : List (String × Value) :=
  [("product_id", .vint 7), ("product_name", .vstr "newlamp"),
   ("picture", .vstr "p2"), ("selling_price", .vint 9),
   ("description", .vstr "d2"), ("category_id", .vint 2)]

/-- Validated form of fullUpdateBody. -/
def wUpdateReq : UpdateProductReq :=
  { product_id := 7, product_name := "newlamp", picture := "p2",
    selling_price := 9, description := "d2", category_id := 2 }

/-- Sample create-product body. -/
def wCreateBody : List (String × Value) :=
  [("product_name", .vstr "chair"), ("picture", .vstr "p3"),
   ("selling_price", .vint 3), ("description", .vstr "d3"),
   ("category_id", .vint 1)]

/-- Validated form of wCreateBody. -/
def wCreateReq : CreateProductReq :=
  { product_name := "chair", picture := "p3", selling_price := 3,
    description := "d3", category_id := 1 }

theorem find_replace_user (u : User) (store : List User) :
    List.find? (fun v => v.user_id == u.user_id)
      (store.map (fun v => if v.user_id == u.user_id then u else v)) =
    if store.any (fun v => v.user_id == u.user_id) then some u else none := by
  rw [List.find?_map]
  have hpf : ((fun v => v.user_id == u.user_id) ∘
      (fun v => if v.user_id == u.user_id then u else v)) =
      (fun v => v.user_id == u.user_id) := by
    funext v
    by_cases h : v.user_id = u.user_id <;> simp [h]
  rw [hpf]
  cases hfind : store.find? (fun v => v.user_id == u.user_id) with
  | none =>
    have hany : store.any (fun v => v.user_id == u.user_id) = false := by
      cases hany : store.any (fun v => v.user_id == u.user_id) with
      | false => rfl
      | true =>
        obtain ⟨x, hx, hpx⟩ := List.any_eq_true.mp hany
        exact absurd hpx (by simpa using List.find?_eq_none.mp hfind x hx)
    simp [hany]
  | some w =>
    have hw := List.find?_some hfind
    have hany : store.any (fun v => v.user_id == u.user_id) = true :=
      List.any_eq_true.mpr ⟨w, List.mem_of_find?_eq_some hfind, hw⟩
    have hwu : (if w.user_id == u.user_id then u else w) = u := if_pos hw
    simp [hany, hwu]
    exact fun h => absurd (by simpa using hw) h

theorem getUser_mergeUser (store : List User) (u : User) :
    getUser (mergeUser store u) u.user_id = some u := by
  unfold getUser mergeUser
  by_cases h : store.any (fun v => v.user_id == u.user_id) = true
  · rw [if_pos h, find_replace_user, if_pos h]
  · rw [if_neg h, List.find?_append]
    have h0 : store.find? (fun v => v.user_id == u.user_id) = none := by
      rw [List.find?_eq_none]
      intro x hx
      simp only [Bool.not_eq_true]
      cases hb : x.user_id == u.user_id
      · rfl
      · exact absurd (List.any_eq_true.mpr ⟨x, hx, hb⟩) h
    simp [h0, List.find?]

/-- C5: a POST /register request whose validated email already belongs to
a stored user is answered with 409 (body status "Email is already exsit")
and the user store is returned unchanged: nothing is inserted and the
existing record is not modified. -/
theorem register_duplicate_email_conflict
    (store : List User) (fresh_uuid : String) (hashpw : String → String)
    (tnow : Int) (body : List (String × Value)) (req : RegisterReq)
    (hval : validateRegister body = some req)
    (u : User) (hu : u ∈ store) (hemail : u.email = req.email) :
    register_route store fresh_uuid hashpw tnow body = (.conflict, store) ∧
    Resp.code .conflict = 409 := by
  have hany : store.any (fun v => v.email == req.email) = true :=
    List.any_eq_true.mpr ⟨u, hu, by simp [hemail]⟩
  exact ⟨by simp [register_route, hval, hany], rfl⟩

/-- Witness for C5 at a concrete store and body. -/
theorem register_duplicate_email_conflict_witness :
    validateRegister wRegisterBody = some wRegisterReq ∧
    wAlice ∈ [wAlice] ∧ wAlice.email = wRegisterReq.email ∧
    register_route [wAlice] "id2" (fun s => s) 0 wRegisterBody =
      (.conflict, [wAlice]) :=
  ⟨by decide, by simp, by decide,
   (register_duplicate_email_conflict [wAlice] "id2" (fun s => s) 0
     wRegisterBody wRegisterReq (by decide) wAlice (by simp) (by decide)).1⟩

/-- C9: the register schema is strict, so a body carrying any key outside
user_name, password, phone and email (for example role or user_id) is
rejected with 400 before any record is created; on success the stored
record's user_id is the server-generated fresh uuid — the same whatever
the body said — and its role is UserRole.user.value, which is 0. -/
theorem register_server_generated_id_and_role
    (store : List User) (fresh_uuid : String) (hashpw : String → String)
    (tnow : Int) (body : List (String × Value)) :
    (∀ k v, (k, v) ∈ body → registerKeys.contains k = false →
      register_route store fresh_uuid hashpw tnow body =
        (.badRequest, store) ∧ Resp.code .badRequest = 400) ∧
    (∀ req, validateRegister body = some req →
      store.any (fun u => u.email == req.email) = false →
      register_route store fresh_uuid hashpw tnow body =
        (.tokenResp (create_token tnow (1 * HOUR)
          (User.to_dict (registeredUser fresh_uuid hashpw req))),
         mergeUser store (registeredUser fresh_uuid hashpw req)) ∧
      (registeredUser fresh_uuid hashpw req).user_id = fresh_uuid ∧
      (registeredUser fresh_uuid hashpw req).role = UserRole.value .user ∧
      UserRole.value .user = 0) := by
  constructor
  · intro k v hkv hk
    have hall : body.all (fun kv => registerKeys.contains kv.1) = false := by
      cases hall : body.all (fun kv => registerKeys.contains kv.1) with
      | false => rfl
      | true =>
        have hmem : k ∈ registerKeys := by
          simpa using List.all_eq_true.mp hall (k, v) hkv
        have hnmem : k ∉ registerKeys := by simpa using hk
        exact absurd hmem hnmem
    have hval : validateRegister body = none := by
      unfold validateRegister
      rw [hall, Bool.false_and]
      rfl
    exact ⟨by simp [register_route, hval], rfl⟩
  · intro req hval hdup
    refine ⟨?_, rfl, rfl, rfl⟩
    simp only [register_route, hval]
    rw [if_neg (by simp [hdup])]
    rw [getUser_mergeUser store (registeredUser fresh_uuid hashpw req)]

/-- Witness for C9: a body smuggling a role key is rejected, and a clean
body yields a record with the fresh id and role 0. -/
theorem register_server_generated_id_and_role_witness :
    (("role", Value.vint 1) ∈ (("role", Value.vint 1) :: wRegisterBody)) ∧
    registerKeys.contains "role" = false ∧
    register_route [] "fresh-id" (fun s => s) 0
      (("role", Value.vint 1) :: wRegisterBody) = (.badRequest, []) ∧
    validateRegister wRegisterBody = some wRegisterReq ∧
    (registeredUser "fresh-id" (fun s => s) wRegisterReq).user_id =
      "fresh-id" ∧
    (registeredUser "fresh-id" (fun s => s) wRegisterReq).role = 0 :=
  ⟨by simp, by decide,
   ((register_server_generated_id_and_role [] "fresh-id" (fun s => s) 0
       (("role", Value.vint 1) :: wRegisterBody)).1
     "role" (Value.vint 1) (by simp) (by decide)).1,
   by decide, by decide, by decide⟩

/-- C3: every token issued by the register and login flows embeds the
identity claims user_id, user_name, phone, role, email and
profile_picture and never a hash claim: the keyword claims are exactly
User.to_dict of the persisted row, which omits the hash column. -/
theorem issued_token_claims_exclude_hash
    (store : List User) (fresh_uuid : String) (hashpw : String → String)
    (checkpw : String → String → Bool) (tnow : Int)
    (body bodyL : List (String × Value)) :
    (∀ req, validateRegister body = some req →
      store.any (fun u => u.email == req.email) = false →
      register_route store fresh_uuid hashpw tnow body =
        (.tokenResp (create_token tnow (1 * HOUR)
          (User.to_dict (registeredUser fresh_uuid hashpw req))),
         mergeUser store (registeredUser fresh_uuid hashpw req)) ∧
      claimsComplete (create_token tnow (1 * HOUR)
        (User.to_dict (registeredUser fresh_uuid hashpw req))) = true) ∧
    (∀ reqL u, validateLogin bodyL = some reqL →
      store.find? (fun v => v.user_name == reqL.user_name) = some u →
      checkpw reqL.password u.hash = true →
      login_route store checkpw tnow bodyL =
        .tokenResp (create_token tnow (1 * HOUR) (User.to_dict u)) ∧
      claimsComplete (create_token tnow (1 * HOUR) (User.to_dict u)) =
        true) := by
  constructor
  · intro req hval hdup
    constructor
    · simp only [register_route, hval]
      rw [if_neg (by simp [hdup])]
      rw [getUser_mergeUser store (registeredUser fresh_uuid hashpw req)]
    · rfl
  · intro reqL u hval hfind hpw
    exact ⟨by simp [login_route, hval, hfind, hpw], rfl⟩

/-- Witness for C3 at a concrete store, register body and login body. -/
theorem issued_token_claims_exclude_hash_witness :
    validateRegister wRegisterBody = some wRegisterReq ∧
    validateLogin wLoginBody = some wLoginReq ∧
    ([wAlice].find? (fun v => v.user_name == wLoginReq.user_name) =
      some wAlice) ∧
    claimsComplete (create_token 0 (1 * HOUR)
      (User.to_dict (registeredUser "fresh-id" (fun s => s) wRegisterReq))) =
      true ∧
    login_route [wAlice] (fun _ _ => true) 0 wLoginBody =
      .tokenResp (create_token 0 (1 * HOUR) (User.to_dict wAlice)) ∧
    claimsComplete (create_token 0 (1 * HOUR) (User.to_dict wAlice)) =
      true :=
  ⟨by decide, by decide, by decide,
   ((issued_token_claims_exclude_hash [] "fresh-id" (fun s => s)
       (fun _ _ => true) 0 wRegisterBody wLoginBody).1
     wRegisterReq (by decide) (by decide)).2,
   ((issued_token_claims_exclude_hash [wAlice] "fresh-id" (fun s => s)
       (fun _ _ => true) 0 wRegisterBody wLoginBody).2
     wLoginReq wAlice (by decide) (by decide) (by decide)).1,
   ((issued_token_claims_exclude_hash [wAlice] "fresh-id" (fun s => s)
       (fun _ _ => true) 0 wRegisterBody wLoginBody).2
     wLoginReq wAlice (by decide) (by decide) (by decide)).2⟩

/-- C6: for a well-formed login body, the unknown-user branch and the
failed-password branch of login_route produce the very same response
value — 401 with body status "Unauthorized" — so the two failure causes
are indistinguishable at the HTTP boundary. -/
theorem login_failures_indistinguishable
    (store : List User) (checkpw : String → String → Bool) (tnow : Int)
    (body : List (String × Value)) (req : LoginReq)
    (hval : validateLogin body = some req) :
    (store.find? (fun u => u.user_name == req.user_name) = none →
      login_route store checkpw tnow body = .unauthorizedResp) ∧
    (∀ u, store.find? (fun v => v.user_name == req.user_name) = some u →
      checkpw req.password u.hash = false →
      login_route store checkpw tnow body = .unauthorizedResp) ∧
    Resp.code .unauthorizedResp = 401 ∧
    Resp.statusText .unauthorizedResp = some "Unauthorized" := by
  refine ⟨?_, ?_, rfl, rfl⟩
  · intro hfind
    simp [login_route, hval, hfind]
  · intro u hfind hpw
    simp [login_route, hval, hfind, hpw]

/-- Witness for C6: the same 401 response on a store without the user and
on a store where the password check fails. -/
theorem login_failures_indistinguishable_witness :
    validateLogin wLoginBody = some wLoginReq ∧
    ([] : List User).find? (fun u => u.user_name == wLoginReq.user_name) =
      none ∧
    [wAlice].find? (fun v => v.user_name == wLoginReq.user_name) =
      some wAlice ∧
    login_route [] (fun _ _ => false) 0 wLoginBody = .unauthorizedResp ∧
    login_route [wAlice] (fun _ _ => false) 0 wLoginBody =
      .unauthorizedResp :=
  ⟨by decide, by decide, by decide,
   (login_failures_indistinguishable [] (fun _ _ => false) 0 wLoginBody
     wLoginReq (by decide)).1 (by decide),
   (login_failures_indistinguishable [wAlice] (fun _ _ => false) 0
     wLoginBody wLoginReq (by decide)).2.1 wAlice (by decide) rfl⟩

/-- C7: a token issued at tnow with lifetime ttl carries exp = iat + ttl;
against a good signature it verifies at every time strictly below
iat + ttl and is rejected at every time at or past iat + ttl; the default
lifetime 1 * HOUR is 3600 seconds. -/
theorem token_expiry_boundary (tnow ttl : Int)
    (kw : List (String × Value)) :
    (create_token tnow ttl kw).exp = (create_token tnow ttl kw).iat + ttl ∧
    (∀ n : Int, n < tnow + ttl →
      jwt_verify true n (create_token tnow ttl kw) = some kw) ∧
    (∀ n : Int, tnow + ttl ≤ n →
      jwt_verify true n (create_token tnow ttl kw) = none) ∧
    1 * HOUR = 3600 := by
  refine ⟨rfl, ?_, ?_, by decide⟩
  · intro n hn
    simp only [jwt_verify, create_token, if_true]
    rw [if_neg (by omega)]
  · intro n hn
    simp only [jwt_verify, create_token, if_true]
    rw [if_pos (by omega)]

/-- Witness for C7 at the expiry boundary of a concrete token. -/
theorem token_expiry_boundary_witness :
    (3599 : Int) < 0 + 3600 ∧
    jwt_verify true 3599 (create_token 0 3600 aliceClaims) =
      some aliceClaims ∧
    (0 : Int) + 3600 ≤ 3600 ∧
    jwt_verify true 3600 (create_token 0 3600 aliceClaims) = none :=
  ⟨by decide, (token_expiry_boundary 0 3600 aliceClaims).2.1 3599 (by decide),
   by decide, (token_expiry_boundary 0 3600 aliceClaims).2.2.1 3600
     (by decide)⟩

/-- C2: token_required answers 403 Forbidden and leaves the ambient state
untouched — with the wrapped handler never invoked, since the result is
the same for every handler — whenever the Authorization header is absent,
does not match the Bearer pattern, carries the empty token (which can
never be a well-formed JWT, so verification fails on it), or carries a
token failing verification. -/
theorem guard_rejects_without_invoking_handler
    (σ : Type) (verify : String → Option (List (String × Value)))
    (st : σ) (handler : List (String × Value) → σ → Resp × σ)
    (hempty : verify "" = none) :
    (token_required σ verify none st handler = (.forbidden, st)) ∧
    (∀ h, parseBearer h = none →
      token_required σ verify (some h) st handler = (.forbidden, st)) ∧
    (∀ h, parseBearer h = some "" →
      token_required σ verify (some h) st handler = (.forbidden, st)) ∧
    (∀ h tok, parseBearer h = some tok → verify tok = none →
      token_required σ verify (some h) st handler = (.forbidden, st)) ∧
    Resp.code .forbidden = 403 := by
  refine ⟨rfl, ?_, ?_, ?_, rfl⟩
  · intro h hparse
    simp [token_required, hparse]
  · intro h hparse
    simp [token_required, hparse, hempty]
  · intro h tok hparse hver
    simp [token_required, hparse, hver]

/-- Witness for C2: a missing header, a header without the Bearer
pattern, a bare "Bearer " header, and a rejected token all produce 403
with the state unchanged, under a handler that would have changed it. -/
theorem guard_rejects_without_invoking_handler_witness :
    ((fun _ : String => (none : Option (List (String × Value)))) "" =
      none) ∧
    parseBearer "Basic xyz" = none ∧
    parseBearer "Bearer " = some "" ∧
    parseBearer "Bearer tok1" = some "tok1" ∧
    token_required Nat (fun _ => none) none 0
      (fun _ n => (.success, n + 1)) = (.forbidden, 0) ∧
    token_required Nat (fun _ => none) (some "Basic xyz") 0
      (fun _ n => (.success, n + 1)) = (.forbidden, 0) ∧
    token_required Nat (fun _ => none) (some "Bearer ") 0
      (fun _ n => (.success, n + 1)) = (.forbidden, 0) ∧
    token_required Nat (fun _ => none) (some "Bearer tok1") 0
      (fun _ n => (.success, n + 1)) = (.forbidden, 0) :=
  ⟨rfl, by decide, by decide, by decide,
   (guard_rejects_without_invoking_handler Nat (fun _ => none) 0
     (fun _ n => (.success, n + 1)) rfl).1,
   (guard_rejects_without_invoking_handler Nat (fun _ => none) 0
     (fun _ n => (.success, n + 1)) rfl).2.1 "Basic xyz" (by decide),
   (guard_rejects_without_invoking_handler Nat (fun _ => none) 0
     (fun _ n => (.success, n + 1)) rfl).2.2.1 "Bearer " (by decide),
   (guard_rejects_without_invoking_handler Nat (fun _ => none) 0
     (fun _ n => (.success, n + 1)) rfl).2.2.2.1 "Bearer tok1" "tok1"
     (by decide) rfl⟩

/-- C1: on an authenticated PUT /product with a validated body, or DELETE
/product with an existing target, a requester whose token user_id differs
from the product's user_id gets 401 with body status "Permission denied"
and the product store is returned unchanged, while the owner gets 200
with message "success". -/
theorem ownership_guard_update_delete
    (store : List Product) (claims : List (String × Value))
    (body : List (String × Value)) (req : UpdateProductReq) (cu : Value)
    (hval : validateUpdateProduct body = some req)
    (hcu : dictGet claims "user_id" = some cu) :
    (∀ p, getProduct store req.product_id = some p →
      (p.user_id ≠ cu →
        update_product_route store claims body =
          (.permissionDenied, store)) ∧
      (p.user_id = cu →
        (update_product_route store claims body).1 = .success)) ∧
    (∀ pid p, getProduct store pid = some p →
      (p.user_id ≠ cu →
        delete_product_route store claims pid =
          (.permissionDenied, store)) ∧
      (p.user_id = cu →
        (delete_product_route store claims pid).1 = .success)) ∧
    Resp.code .permissionDenied = 401 ∧
    Resp.statusText .permissionDenied = some "Permission denied" ∧
    Resp.code .success = 200 ∧
    Resp.messageText .success = some "success" := by
  refine ⟨?_, ?_, rfl, rfl, rfl, rfl⟩
  · intro p hp
    constructor
    · intro hne
      simp [update_product_route, hval, hcu, hp, hne]
    · intro heq
      simp [update_product_route, hval, hcu, hp, heq]
  · intro pid p hp
    constructor
    · intro hne
      simp [delete_product_route, hcu, hp, hne]
    · intro heq
      simp [delete_product_route, hcu, hp, heq]

/-- Witness for C1: bob is rejected with 401 and alice succeeds, on both
the update and the delete handler, over a concrete store. -/
theorem ownership_guard_update_delete_witness :
    validateUpdateProduct fullUpdateBody = some wUpdateReq ∧
    dictGet bobClaims "user_id" = some (.vstr "bob-id") ∧
    dictGet aliceClaims "user_id" = some (.vstr "alice-id") ∧
    getProduct sampleProductStore wUpdateReq.product_id =
      some sampleProduct ∧
    update_product_route sampleProductStore bobClaims fullUpdateBody =
      (.permissionDenied, sampleProductStore) ∧
    (update_product_route sampleProductStore aliceClaims fullUpdateBody).1 =
      .success ∧
    delete_product_route sampleProductStore bobClaims 7 =
      (.permissionDenied, sampleProductStore) ∧
    (delete_product_route sampleProductStore aliceClaims 7).1 = .success :=
  ⟨by decide, by decide, by decide, by decide,
   ((ownership_guard_update_delete sampleProductStore bobClaims
       fullUpdateBody wUpdateReq (.vstr "bob-id") (by decide) (by decide)).1
     sampleProduct (by decide)).1 (by decide),
   ((ownership_guard_update_delete sampleProductStore aliceClaims
       fullUpdateBody wUpdateReq (.vstr "alice-id") (by decide)
       (by decide)).1 sampleProduct (by decide)).2 (by decide),
   ((ownership_guard_update_delete sampleProductStore bobClaims
       fullUpdateBody wUpdateReq (.vstr "bob-id") (by decide) (by decide)).2.1
     7 sampleProduct (by decide)).1 (by decide),
   ((ownership_guard_update_delete sampleProductStore aliceClaims
       fullUpdateBody wUpdateReq (.vstr "alice-id") (by decide)
       (by decide)).2.1 7 sampleProduct (by decide)).2 (by decide)⟩

/-- C8: a successful authenticated POST /product appends exactly the row
createdProduct fresh_pid owner req, whose user_id is the token claims
user_id and whose available column is 0, for every validated body. -/
theorem created_product_owner_and_available
    (store : List Product) (claims : List (String × Value))
    (fresh_pid : Int) (body : List (String × Value))
    (req : CreateProductReq) (owner : Value)
    (hval : validateCreateProduct body = some req)
    (howner : dictGet claims "user_id" = some owner) :
    create_product_route store claims fresh_pid body =
      (.success, store ++ [createdProduct fresh_pid owner req]) ∧
    (createdProduct fresh_pid owner req).user_id = owner ∧
    (createdProduct fresh_pid owner req).available = 0 ∧
    Resp.code .success = 200 := by
  refine ⟨?_, rfl, rfl, rfl⟩
  simp [create_product_route, hval, howner]

/-- Witness for C8 on a concrete body and claims. -/
theorem created_product_owner_and_available_witness :
    validateCreateProduct wCreateBody = some wCreateReq ∧
    dictGet bobClaims "user_id" = some (.vstr "bob-id") ∧
    create_product_route [] bobClaims 11 wCreateBody =
      (.success, [createdProduct 11 (.vstr "bob-id") wCreateReq]) ∧
    (createdProduct 11 (.vstr "bob-id") wCreateReq).user_id =
      .vstr "bob-id" ∧
    (createdProduct 11 (.vstr "bob-id") wCreateReq).available = 0 :=
  ⟨by decide, by decide,
   (created_product_owner_and_available [] bobClaims 11 wCreateBody
     wCreateReq (.vstr "bob-id") (by decide) (by decide)).1,
   by decide, by decide⟩

/-- C10: current_user_route yields a structured 200 response — the
identity's public fields, hash omitted — exactly when the token's user_id
still denotes a stored row; when the lookup finds no row the handler
dereferences None and the run ends in the unguarded crash path. -/
theorem current_user_requires_existing_row
    (store : List User) (claims : List (String × Value)) (uid : Value)
    (hcu : dictGet claims "user_id" = some uid) :
    (getUserByValue store uid = none →
      current_user_route store claims = .crash) ∧
    (∀ u, getUserByValue store uid = some u →
      current_user_route store claims = .jsonResp (User.to_dict u) ∧
      Resp.code (.jsonResp (User.to_dict u)) = 200 ∧
      dictGet (User.to_dict u) "hash" = none) := by
  constructor
  · intro hnone
    simp [current_user_route, hcu, hnone]
  · intro u hsome
    refine ⟨by simp [current_user_route, hcu, hsome], rfl, rfl⟩

/-- Witness for C10: a claims user_id absent from the store crashes the
handler, a present one yields the public fields without the hash. -/
theorem current_user_requires_existing_row_witness :
    dictGet bobClaims "user_id" = some (.vstr "bob-id") ∧
    getUserByValue [wAlice] (.vstr "bob-id") = none ∧
    current_user_route [wAlice] bobClaims = .crash ∧
    dictGet aliceClaims "user_id" = some (.vstr "alice-id") ∧
    getUserByValue [wAlice] (.vstr "alice-id") = some wAlice ∧
    current_user_route [wAlice] aliceClaims =
      .jsonResp (User.to_dict wAlice) ∧
    dictGet (User.to_dict wAlice) "hash" = none :=
  ⟨by decide, by decide,
   (current_user_requires_existing_row [wAlice] bobClaims (.vstr "bob-id")
     (by decide)).1 (by decide),
   by decide, by decide,
   ((current_user_requires_existing_row [wAlice] aliceClaims
       (.vstr "alice-id") (by decide)).2 wAlice (by decide)).1,
   ((current_user_requires_existing_row [wAlice] aliceClaims
       (.vstr "alice-id") (by decide)).2 wAlice (by decide)).2.2⟩

/-- C4 counterexample: the owner sends PUT /product with product_id and a
proper subset of the create fields — product_name only — and the handler
answers 400 with the store unchanged, not 200 success: the update schema
requires every create field. -/
theorem update_subset_body_rejected :
    update_product_route sampleProductStore aliceClaims subsetUpdateBody =
      (.badRequest, sampleProductStore) ∧
    (update_product_route sampleProductStore aliceClaims
      subsetUpdateBody).1 ≠ .success ∧
    Resp.code .badRequest = 400 := by
  decide

/-- C4 (amended): an authenticated owner PUT /product succeeds with 200
message "success" and writes the listed fields exactly when the body
carries product_id together with all five create fields; a body from
which any of these six keys is missing is rejected with 400 and leaves
the store unchanged. -/
theorem update_accepts_full_field_set
    (store : List Product) (claims : List (String × Value))
    (body : List (String × Value)) :
    (∀ k, k ∈ updateProductKeys → dictGet body k = none →
      update_product_route store claims body = (.badRequest, store)) ∧
    (∀ req cu p, validateUpdateProduct body = some req →
      dictGet claims "user_id" = some cu →
      getProduct store req.product_id = some p → p.user_id = cu →
      update_product_route store claims body =
        (.success, mergeProduct store (applyUpdate p req)) ∧
      Resp.code .success = 200 ∧
      Resp.messageText .success = some "success") := by
  constructor
  · intro k hk hnone
    have hall : updateProductKeys.all
        (fun k => (dictGet body k).isSome) = false := by
      cases hall : updateProductKeys.all
          (fun k => (dictGet body k).isSome) with
      | false => rfl
      | true =>
        have := List.all_eq_true.mp hall k hk
        rw [hnone] at this
        exact absurd this (by decide)
    have hval : validateUpdateProduct body = none := by
      unfold validateUpdateProduct
      rw [hall, Bool.and_false]
      rfl
    simp [update_product_route, hval]
  · intro req cu p hval hcu hp howner
    refine ⟨?_, rfl, rfl⟩
    simp [update_product_route, hval, hcu, hp, howner]

/-- Witness for the amended C4: the missing-picture body is rejected with
the store unchanged, and the full body from the owner succeeds and writes
every field. -/
theorem update_accepts_full_field_set_witness :
    ("picture" ∈ updateProductKeys) ∧
    dictGet subsetUpdateBody "picture" = none ∧
    update_product_route sampleProductStore aliceClaims subsetUpdateBody =
      (.badRequest, sampleProductStore) ∧
    validateUpdateProduct fullUpdateBody = some wUpdateReq ∧
    update_product_route sampleProductStore aliceClaims fullUpdateBody =
      (.success,
       mergeProduct sampleProductStore (applyUpdate sampleProduct
         wUpdateReq)) :=
  ⟨by decide, by decide,
   (update_accepts_full_field_set sampleProductStore aliceClaims
     subsetUpdateBody).1 "picture" (by decide) (by decide),
   by decide,
   ((update_accepts_full_field_set sampleProductStore aliceClaims
       fullUpdateBody).2 wUpdateReq (.vstr "alice-id") sampleProduct
     (by decide) (by decide) (by decide) (by decide)).1⟩

end App
